import Mathlib

/-!
Verification of `notifications.py`, an OBS front-end script that maps
recording / replay-buffer lifecycle events to macOS notifications
(via `osascript`), keeps one piece of volatile state (the recording
start timestamp) and reconciles one persisted boolean setting
(`enableRB`) with the replay buffer's running state.

The embedding is shallow: wall-clock instants are natural numbers of
microseconds (Python `datetime` has microsecond resolution), the
side effects of each Python function are reified as a list of
`Effect` values in program order, and the `obs_data_t` settings
object is a key-value store with separate stored values and defaults,
mirroring the OBS data API.
-/

namespace Notifications

/-- Zero pad a decimal rendering to `w` characters, as Python
`"%02d" % n` / `"%06d" % n` do for non-negative `n`. -/
def padZero (w n : Nat) : String :=
  String.mk (List.replicate (w - (Nat.repr n).data.length) '0') ++ Nat.repr n

/-- Python `datetime.strftime("%I:%M:%S %p")` for an instant given in
microseconds: 12-hour clock (zero padded, `12` for 0 and 12 hours),
minutes, seconds, and `AM`/`PM`. -/
def strftime_IMS_p (t : Nat) : String :=
  let secOfDay := t / 1000000 % 86400
  let h := secOfDay / 3600
  let m := secOfDay % 3600 / 60
  let s := secOfDay % 60
  let h12 := if h % 12 = 0 then 12 else h % 12
  padZero 2 h12 ++ ":" ++ padZero 2 m ++ ":" ++ padZero 2 s ++ " " ++
    (if h < 12 then "AM" else "PM")

/-- The `days` field of a normalized Python `timedelta` of `m`
microseconds (Python normalizes with flooring division). -/
def timedelta_days (m : Int) : Int :=
  (m.fdiv 1000000).fdiv 86400

/-- The `seconds` field (`0 ≤ seconds < 86400`) of a normalized Python
`timedelta` of `m` microseconds. -/
def timedelta_seconds (m : Int) : Nat :=
  ((m.fdiv 1000000).fmod 86400).toNat

/-- The `microseconds` field (`0 ≤ microseconds < 1000000`) of a
normalized Python `timedelta` of `m` microseconds. -/
def timedelta_micros (m : Int) : Nat :=
  (m.fmod 1000000).toNat

/-- The whole-second part of Python `str(timedelta)`:
`"H:MM:SS"`, preceded by `"D day(s), "` when the normalized day count
is nonzero (`day` without the `s` exactly when its absolute value
is 1). -/
def timedelta_base (m : Int) : String :=
  if timedelta_days m = 0 then
    Nat.repr (timedelta_seconds m / 3600) ++ ":" ++
      padZero 2 (timedelta_seconds m % 3600 / 60) ++ ":" ++
      padZero 2 (timedelta_seconds m % 60)
  else
    Int.repr (timedelta_days m) ++ " day" ++
      (if (timedelta_days m).natAbs = 1 then "" else "s") ++ ", " ++
      Nat.repr (timedelta_seconds m / 3600) ++ ":" ++
      padZero 2 (timedelta_seconds m % 3600 / 60) ++ ":" ++
      padZero 2 (timedelta_seconds m % 60)

/-- Python `str(timedelta)` of `m` microseconds: the whole-second part,
followed by `".ffffff"` when the microsecond field is nonzero. -/
def timedelta_str (m : Int) : String :=
  timedelta_base m ++
    (if timedelta_micros m = 0 then ""
     else "." ++ padZero 6 (timedelta_micros m))

/-- Python `s.split(".")[0]`: the longest leading piece of `s` that
contains no `"."` (the whole string when there is none). -/
def split_dot_head (s : String) : String :=
  String.mk (s.data.takeWhile (fun c => c != '.'))

/-- The four OBS front-end events the script recognizes; `other` stands
for every other member of the event enumeration. -/
inductive Event where
  | recordingStarted
  | recordingStopped
  | replayBufferSaved
  | replayBufferStopped
  | other (code : Nat)
  deriving DecidableEq

/-- One observable side effect of the script, in program order:
`print` is a console log line, `call` a blocking `subprocess.call`,
`popen` a non-blocking (fire-and-forget) `subprocess.Popen`, and the
rest are calls into the OBS API. -/
inductive Effect where
  | print (msg : String)
  | call (args : List String)
  | popen (args : List String)
  | rbStart
  | rbStop
  | addEventCallback
  | removeEventCallback
  deriving DecidableEq

/-- The `osascript` payload used by every notification dispatch:
`display notification "<msg>" with title "OBS"`. -/
def display_notification (msg : String) : String :=
  "display notification \"" ++ msg ++ "\" with title \"OBS\""

/-- The message of the `RECORDING_STOPPED` branch:
`f"Recording stopped at {now}. Duration: {str(stop - start).split sub dot}"`
with `now = stop.strftime("%I:%M:%S %p")`. -/
def stop_message (stop startT : Nat) : String :=
  "Recording stopped at " ++ strftime_IMS_p stop ++ ". Duration: " ++
    split_dot_head (timedelta_str ((stop : Int) - (startT : Int)))

/-- `get_event`, the script's event handler. Inputs: the current
wall-clock instant `now` (microseconds), the fired `event`, and the
module-global `start` timestamp (`none` models Python `None`). Result:
`Except.error` when the Python code raises (subtracting the unset
`start` in the stopped branch), otherwise the new value of `start`
together with the effects in program order. -/
def get_event (now : Nat) (event : Event) (start : Option Nat) :
    Except String (Option Nat × List Effect) :=
  match event with
  | Event.recordingStarted =>
      let startNew := now
      let start_msg := strftime_IMS_p startNew
      let msg := "Recording started at " ++ start_msg
      Except.ok (some startNew,
        [Effect.print msg,
         Effect.call ["osascript", "-e", display_notification msg]])
  | Event.recordingStopped =>
      match start with
      | none =>
          Except.error "TypeError: unsupported operand types for -: datetime and NoneType"
      | some startT =>
          let stop := now
          let msg := stop_message stop startT
          Except.ok (some startT,
            [Effect.print msg,
             Effect.popen ["osascript", "-e", msg],
             Effect.call ["osascript", "-e", display_notification msg]])
  | Event.replayBufferSaved =>
      let nowS := strftime_IMS_p now
      let msg := "Replay buffer saved at " ++ nowS
      Except.ok (start,
        [Effect.print msg,
         Effect.call ["osascript", "-e", display_notification msg]])
  | Event.replayBufferStopped =>
      let msg := "Replay buffer stopped"
      Except.ok (start,
        [Effect.print msg,
         Effect.call ["osascript", "-e", display_notification msg]])
  | Event.other _ => Except.ok (start, [])

/-- The effect list of a handler result (a raising run has produced no
complete dispatch). -/
def effectsOf : Except String (Option Nat × List Effect) → List Effect
  | Except.ok (_, effs) => effs
  | Except.error _ => []

/-- The `start` timestamp after a handler result (unchanged `none` for
a raising run from the unset state). -/
def stateOf : Except String (Option Nat × List Effect) → Option Nat
  | Except.ok (st, _) => st
  | Except.error _ => none

/-- Whether a handler run returned normally (Python `return None`)
rather than raising. -/
def returnedNormally : Except String (Option Nat × List Effect) → Bool
  | Except.ok _ => true
  | Except.error _ => false

/-- The `obs_data_t` settings object: stored values and defaults for
boolean keys, kept separately as in the OBS data API. -/
structure DataSettings where
  values : String → Option Bool
  defaults : String → Option Bool

/-- `obs_data_set_default_bool`: set the default (not the stored value)
of one key. -/
def obs_data_set_default_bool (s : DataSettings) (key : String) (v : Bool) :
    DataSettings :=
  { s with defaults := fun k => if k = key then some v else s.defaults k }

/-- `obs_data_get_bool`: the stored value when present, else the
default, else `false`. -/
def obs_data_get_bool (s : DataSettings) (key : String) : Bool :=
  match s.values key with
  | some v => v
  | none =>
      match s.defaults key with
      | some v => v
      | none => false

/-- `script_defaults`: set the default of `"enableRB"` to
`True if obs_frontend_replay_buffer_active() else False`. The replay
buffer's live running state at configuration time is the Bool
`replay_buffer_active`. -/
def script_defaults (replay_buffer_active : Bool) (settings : DataSettings) :
    DataSettings :=
  obs_data_set_default_bool settings "enableRB"
    (if replay_buffer_active then true else false)

/-- `script_load`: log, register `get_event` as the front-end event
callback, log again, then read `"enableRB"` and (when it is true)
start the replay buffer between two more log lines. The effect list is
in program order. -/
def script_load (settings : DataSettings) : List Effect :=
  let enable_replay_buffer := obs_data_get_bool settings "enableRB"
  [Effect.print "Configuring callback...",
   Effect.addEventCallback,
   Effect.print "Callback configured successfully"] ++
  (if enable_replay_buffer then
     [Effect.print "Enabling replay buffer...",
      Effect.rbStart,
      Effect.print "Replay buffer enabled"]
   else [])

/-- `script_unload`: log and deregister the event callback. -/
def script_unload : List Effect :=
  [Effect.print "Script unloading. Releasing objects and removing callbacks...",
   Effect.removeEventCallback]

/-- `script_update`: read `"enableRB"`; start the replay buffer when the
flag is true and the buffer is not active, stop it when the flag is
false and the buffer is active, otherwise do nothing. Returns the replay
buffer's running state after the call (starting makes it run, stopping
ends it) and the effects in program order. -/
def script_update (settings : DataSettings) (replay_buffer_active : Bool) :
    Bool × List Effect :=
  let start_replay_buffer := obs_data_get_bool settings "enableRB"
  if start_replay_buffer && !replay_buffer_active then
    (true,
     [Effect.print "Starting replay buffer...",
      Effect.rbStart,
      Effect.print "Replay buffer started"])
  else if !start_replay_buffer && replay_buffer_active then
    (false,
     [Effect.print "Stopping replay buffer...",
      Effect.rbStop,
      Effect.print "Replay buffer stopped"])
  else (replay_buffer_active, [])

/-- Whether an effect is a non-blocking `subprocess.Popen` spawn. -/
def is_popen_effect : Effect → Bool
  | Effect.popen _ => true
  | _ => false

/-- Whether an effect is a blocking `subprocess.call`. -/
def is_call_effect : Effect → Bool
  | Effect.call _ => true
  | _ => false

/-- Whether an effect is a replay-buffer start or stop invocation. -/
def is_rb_command : Effect → Bool
  | Effect.rbStart => true
  | Effect.rbStop => true
  | _ => false

/-- Stated from the spec sentence, for comparison with the code's
message: the duration rendered from a whole number of seconds (the
sub-second component already discarded), in the textual form
`H:MM:SS`, preceded by a day count when there is one. -/
def spec_duration_string (totalSeconds : Nat) : String :=
  if totalSeconds / 86400 = 0 then
    Nat.repr (totalSeconds % 86400 / 3600) ++ ":" ++
      padZero 2 (totalSeconds % 86400 % 3600 / 60) ++ ":" ++
      padZero 2 (totalSeconds % 86400 % 60)
  else
    Nat.repr (totalSeconds / 86400) ++ " day" ++
      (if totalSeconds / 86400 = 1 then "" else "s") ++ ", " ++
      Nat.repr (totalSeconds % 86400 / 3600) ++ ":" ++
      padZero 2 (totalSeconds % 86400 % 3600 / 60) ++ ":" ++
      padZero 2 (totalSeconds % 86400 % 60)

/-! ## Helper lemmas: decimal renderings contain no dot, so Python's
`split(".")[0]` drops exactly the fractional part of a timedelta
rendering. -/

/-- No digit character is a dot. -/
theorem digitChar_ne_dot (k : Nat) : (Nat.digitChar k != '.') = true := by
  rcases k with _|_|_|_|_|_|_|_|_|_|_|_|_|_|_|_|n <;> rfl

/-- `Nat.toDigitsCore` only ever emits digit characters on top of its
accumulator, so a dot-free accumulator stays dot-free. -/
theorem toDigitsCore_ne_dot (fuel : Nat) :
    ∀ (n : Nat) (ds : List Char), (∀ c ∈ ds, (c != '.') = true) →
      ∀ c ∈ Nat.toDigitsCore 10 fuel n ds, (c != '.') = true := by
  induction fuel with
  | zero =>
      intro n ds h c hc
      have hrw : Nat.toDigitsCore 10 0 n ds = ds := rfl
      rw [hrw] at hc
      exact h c hc
  | succ fuel ih =>
      intro n ds h c hc
      have hrw : Nat.toDigitsCore 10 (fuel + 1) n ds =
          if n / 10 = 0 then Nat.digitChar (n % 10) :: ds
          else Nat.toDigitsCore 10 fuel (n / 10) (Nat.digitChar (n % 10) :: ds) := rfl
      rw [hrw] at hc
      have hds : ∀ x ∈ Nat.digitChar (n % 10) :: ds, (x != '.') = true := by
        intro x hx
        rcases List.mem_cons.mp hx with h1 | h2
        · rw [h1]
          exact digitChar_ne_dot (n % 10)
        · exact h x h2
      by_cases hz : n / 10 = 0
      · rw [if_pos hz] at hc
        exact hds c hc
      · rw [if_neg hz] at hc
        exact ih (n / 10) _ hds c hc

/-- The decimal rendering of a natural number contains no dot. -/
theorem natRepr_ne_dot (n : Nat) : ∀ c ∈ (Nat.repr n).data, (c != '.') = true := by
  intro c hc
  have hrw : (Nat.repr n).data = Nat.toDigitsCore 10 (n + 1) n [] := rfl
  rw [hrw] at hc
  exact toDigitsCore_ne_dot (n + 1) n []
    (fun x hx => absurd hx (List.not_mem_nil x)) c hc

/-- The decimal rendering of an integer contains no dot. -/
theorem intRepr_ne_dot (i : Int) : ∀ c ∈ (Int.repr i).data, (c != '.') = true := by
  cases i with
  | ofNat m => exact natRepr_ne_dot m
  | negSucc m =>
      intro c hc
      have hd : (Int.repr (Int.negSucc m)).data = '-' :: (Nat.repr (m + 1)).data := rfl
      rw [hd] at hc
      rcases List.mem_cons.mp hc with h1 | h2
      · rw [h1]
        rfl
      · exact natRepr_ne_dot (m + 1) c h2

/-- Appending preserves dot-freeness. -/
theorem append_ne_dot {a b : String}
    (ha : ∀ c ∈ a.data, (c != '.') = true) (hb : ∀ c ∈ b.data, (c != '.') = true) :
    ∀ c ∈ (a ++ b).data, (c != '.') = true := by
  intro c hc
  rw [String.data_append] at hc
  rcases List.mem_append.mp hc with h | h
  · exact ha c h
  · exact hb c h

/-- Zero padding a decimal rendering keeps it dot-free. -/
theorem padZero_ne_dot (w n : Nat) : ∀ c ∈ (padZero w n).data, (c != '.') = true := by
  intro c hc
  unfold padZero at hc
  rw [String.data_append] at hc
  rcases List.mem_append.mp hc with h | h
  · have h2 : c ∈ List.replicate (w - (Nat.repr n).data.length) '0' := h
    rw [List.eq_of_mem_replicate h2]
    rfl
  · exact natRepr_ne_dot n c h

/-- The whole-second part of a timedelta rendering contains no dot. -/
theorem timedelta_base_ne_dot (m : Int) :
    ∀ c ∈ (timedelta_base m).data, (c != '.') = true := by
  unfold timedelta_base
  by_cases hd : timedelta_days m = 0
  · rw [if_pos hd]
    exact append_ne_dot (append_ne_dot (append_ne_dot (append_ne_dot
      (natRepr_ne_dot _) (by decide)) (padZero_ne_dot _ _)) (by decide))
      (padZero_ne_dot _ _)
  · rw [if_neg hd]
    refine append_ne_dot (append_ne_dot (append_ne_dot (append_ne_dot
      (append_ne_dot (append_ne_dot (append_ne_dot (append_ne_dot
        (intRepr_ne_dot _) (by decide)) ?_) (by decide)) (natRepr_ne_dot _))
      (by decide)) (padZero_ne_dot _ _)) (by decide)) (padZero_ne_dot _ _)
    by_cases h1 : (timedelta_days m).natAbs = 1
    · rw [if_pos h1]
      decide
    · rw [if_neg h1]
      decide

/-- `split(".")[0]` of a full timedelta rendering is exactly its
whole-second part: the fractional suffix (when present) is dropped and
nothing else is. -/
theorem split_dot_head_timedelta (m : Int) :
    split_dot_head (timedelta_str m) = timedelta_base m := by
  unfold split_dot_head timedelta_str
  by_cases hm : timedelta_micros m = 0
  · rw [if_pos hm, String.data_append]
    rw [show ("" : String).data = [] from rfl, List.append_nil]
    rw [List.takeWhile_eq_self_iff.mpr (timedelta_base_ne_dot m)]
  · rw [if_neg hm, String.data_append, String.data_append]
    rw [show ("." : String).data = ['.'] from rfl]
    simp only [List.cons_append, List.nil_append]
    rw [List.takeWhile_append_of_pos (timedelta_base_ne_dot m)]
    rw [List.takeWhile_cons_of_neg (by decide)]
    rw [List.append_nil]

/-! ## Helper lemmas: the timedelta fields of a non-negative (whole
`Nat`) microsecond count agree with plain natural division. -/

/-- Flooring integer division agrees with natural division on
non-negative operands. -/
theorem int_fdiv_ofNat (m n : Nat) :
    Int.fdiv (Int.ofNat m) (Int.ofNat n) = Int.ofNat (m / n) := by
  cases m with
  | zero =>
      show (0 : Int) = Int.ofNat (0 / n)
      rw [Nat.zero_div]
      rfl
  | succ k => rfl

/-- Flooring integer remainder agrees with natural remainder on
non-negative operands. -/
theorem int_fmod_ofNat (m n : Nat) :
    Int.fmod (Int.ofNat m) (Int.ofNat n) = Int.ofNat (m % n) := by
  cases m with
  | zero =>
      show (0 : Int) = Int.ofNat (0 % n)
      rw [Nat.zero_mod]
      rfl
  | succ k => rfl

/-- The day field of a whole-`Nat` microsecond count. -/
theorem timedelta_days_ofNat (m : Nat) :
    timedelta_days (Int.ofNat m) = Int.ofNat (m / 1000000 / 86400) := by
  show Int.fdiv (Int.fdiv (Int.ofNat m) (Int.ofNat 1000000)) (Int.ofNat 86400) = _
  rw [int_fdiv_ofNat, int_fdiv_ofNat]

/-- The second field of a whole-`Nat` microsecond count. -/
theorem timedelta_seconds_ofNat (m : Nat) :
    timedelta_seconds (Int.ofNat m) = m / 1000000 % 86400 := by
  show (Int.fmod (Int.fdiv (Int.ofNat m) (Int.ofNat 1000000)) (Int.ofNat 86400)).toNat = _
  rw [int_fdiv_ofNat, int_fmod_ofNat]
  rfl

/-- The microsecond field of a whole-`Nat` microsecond count. -/
theorem timedelta_micros_ofNat (m : Nat) :
    timedelta_micros (Int.ofNat m) = m % 1000000 := by
  show (Int.fmod (Int.ofNat m) (Int.ofNat 1000000)).toNat = _
  rw [int_fmod_ofNat]
  rfl

/-- On a whole-`Nat` microsecond count the code's whole-second
timedelta rendering is the spec's rendering of the duration truncated
to whole seconds. -/
theorem timedelta_base_ofNat (m : Nat) :
    timedelta_base (Int.ofNat m) = spec_duration_string (m / 1000000) := by
  unfold timedelta_base spec_duration_string
  rw [timedelta_days_ofNat, timedelta_seconds_ofNat]
  by_cases hD : m / 1000000 / 86400 = 0
  · rw [if_pos (by rw [hD]; rfl), if_pos hD]
  · have hD2 : Int.ofNat (m / 1000000 / 86400) ≠ 0 := fun hcontr =>
      hD (Int.ofNat.inj hcontr)
    rw [if_neg hD2, if_neg hD]
    rfl

/-- The code's stop message, rewritten through the spec's description:
stop time through the `%I:%M:%S %p` formatter, duration truncated to
whole seconds. -/
theorem stop_message_spec (t1 t2 : Nat) (hle : t1 ≤ t2) :
    stop_message t2 t1 =
      "Recording stopped at " ++ strftime_IMS_p t2 ++ ". Duration: " ++
        spec_duration_string ((t2 - t1) / 1000000) := by
  unfold stop_message
  have h1 : ((t2 : Int) - (t1 : Int)) = Int.ofNat (t2 - t1) := by
    have h2 : ((t2 : Int) - (t1 : Int)) = ((t2 - t1 : Nat) : Int) := by omega
    rw [h2]
    rfl
  rw [h1, split_dot_head_timedelta, timedelta_base_ofNat]

/-- The first character of the stop message is `R`. -/
theorem stop_message_head (t2 t1 : Nat) :
    (stop_message t2 t1).data.head? = some 'R' := by
  unfold stop_message
  simp only [String.data_append]
  rfl

/-- The first character of a `display notification` payload is `d`. -/
theorem display_notification_head (msg : String) :
    (display_notification msg).data.head? = some 'd' := by
  unfold display_notification
  simp only [String.data_append]
  rfl

/-! ## The claims. -/

/-- C1: for every handled pair of a `RecordingStarted` event at time
`t1` followed by a `RecordingStopped` event at time `t2`, the stop
message reports the stop time through the 12-hour `%I:%M:%S %p`
formatter and the duration `t2 - t1` truncated to whole seconds (the
sub-second component discarded). The 10:00:00 / 10:00:05 scenario of
the spec is instantiated in the witness. -/
theorem c1_stop_reports_time_and_truncated_duration (t1 t2 : Nat) (st0 : Option Nat)
    (hle : t1 ≤ t2) :
    (effectsOf (get_event t2 Event.recordingStopped
        (stateOf (get_event t1 Event.recordingStarted st0)))).head? =
      some (Effect.print ("Recording stopped at " ++ strftime_IMS_p t2 ++
        ". Duration: " ++ spec_duration_string ((t2 - t1) / 1000000))) := by
  have hst : stateOf (get_event t1 Event.recordingStarted st0) = some t1 := rfl
  rw [hst]
  show some (Effect.print (stop_message t2 t1)) = _
  rw [stop_message_spec t1 t2 hle]

/-- Witness for C1: a start at 10:00:00 AM (36000000000 microseconds
into the day) and a stop at 10:00:05 AM yield exactly the message
`Recording stopped at 10:00:05 AM. Duration: 0:00:05`. -/
theorem c1_witness :
    (36000000000 : Nat) ≤ 36005000000 ∧
    (effectsOf (get_event 36005000000 Event.recordingStopped
        (stateOf (get_event 36000000000 Event.recordingStarted none)))).head? =
      some (Effect.print "Recording stopped at 10:00:05 AM. Duration: 0:00:05") := by
  refine ⟨by decide, ?_⟩
  rw [c1_stop_reports_time_and_truncated_duration 36000000000 36005000000 none (by decide)]
  decide

/-- C2: `script_update` is a level-triggered reconciliation: it starts
the buffer exactly when the flag is true and the buffer is not running,
stops it exactly when the flag is false and the buffer is running, and
otherwise does nothing; across two consecutive calls with the same
settings there is at most one start/stop in total and the second call
is a no-op (no effects, state unchanged). -/
theorem c2_script_update_idempotent (settings : DataSettings) (active : Bool) :
    ((script_update settings active).2.count Effect.rbStart =
      (if obs_data_get_bool settings "enableRB" && !active then 1 else 0)) ∧
    ((script_update settings active).2.count Effect.rbStop =
      (if !(obs_data_get_bool settings "enableRB") && active then 1 else 0)) ∧
    ((script_update settings active).2.countP is_rb_command +
      (script_update settings (script_update settings active).1).2.countP is_rb_command ≤ 1) ∧
    ((script_update settings (script_update settings active).1).2 = []) ∧
    ((script_update settings (script_update settings active).1).1 =
      (script_update settings active).1) := by
  cases h : obs_data_get_bool settings "enableRB" <;> cases active <;>
    simp [script_update, h, is_rb_command]

/-- C3: `script_defaults` makes the default of the `enableRB` flag
`true` exactly when the replay buffer is running at configuration time,
regardless of the settings object it is given (in particular of any
previously stored value, which it leaves untouched). -/
theorem c3_script_defaults_mirrors_live_state (active : Bool) (settings : DataSettings) :
    ((script_defaults active settings).defaults "enableRB" = some active) ∧
    ((script_defaults active settings).values = settings.values) := by
  cases active <;> simp [script_defaults, obs_data_set_default_bool]

/-- C4: `script_load` registers the event callback exactly once and
issues exactly one replay-buffer start invocation when the persisted
flag reads true and none when it reads false; it takes no notice of the
buffer's running state (no such input exists in its signature). -/
theorem c4_script_load_registers_and_starts (settings : DataSettings) :
    ((script_load settings).count Effect.addEventCallback = 1) ∧
    ((script_load settings).count Effect.rbStart =
      (if obs_data_get_bool settings "enableRB" then 1 else 0)) := by
  cases h : obs_data_get_bool settings "enableRB" <;> simp [script_load, h]

/-- C5 (amended): a `RecordingStopped` event handled while the session
timestamp is still unset does not produce a duration at all: the
duration computation raises (Python subtracts `None` from a datetime),
no message or notification is produced, and the code has no explicit
error handling for it. -/
theorem c5_stop_without_start_raises (now : Nat) :
    get_event now Event.recordingStopped none =
      Except.error "TypeError: unsupported operand types for -: datetime and NoneType" := rfl

/-- Counterexample to C5 as stated: at the concrete input (time 0,
`RecordingStopped`, timestamp unset) the handler does not return
normally, so it produces no duration message, nonsensical or
otherwise. -/
theorem c5_counterexample :
    returnedNormally (get_event 0 Event.recordingStopped none) = false := rfl

/-- C6: every handled `RecordingStopped` event spawns exactly one
non-blocking `Popen` command, whose payload is the raw message string,
alongside exactly one blocking notification `call` whose payload is the
wrapped `display notification` form; the two payloads differ. -/
theorem c6_stop_spawns_one_raw_side_channel (now t : Nat) :
    ((effectsOf (get_event now Event.recordingStopped (some t))).filter is_popen_effect =
      [Effect.popen ["osascript", "-e", stop_message now t]]) ∧
    ((effectsOf (get_event now Event.recordingStopped (some t))).filter is_call_effect =
      [Effect.call ["osascript", "-e", display_notification (stop_message now t)]]) ∧
    stop_message now t ≠ display_notification (stop_message now t) := by
  refine ⟨rfl, rfl, fun hcontr => ?_⟩
  have h1 : (stop_message now t).data.head? = some 'R' := stop_message_head now t
  have h2 : (display_notification (stop_message now t)).data.head? = some 'd' :=
    display_notification_head (stop_message now t)
  rw [hcontr] at h1
  exact absurd (h1.symm.trans h2) (by decide)

/-- C7: every event other than the four recognized ones is a complete
no-op: the handler returns normally with the timestamp unchanged and an
empty effect list (no log line, no spawned command). -/
theorem c7_unrecognized_events_noop (now code : Nat) (st : Option Nat) :
    get_event now (Event.other code) st = Except.ok (st, []) := rfl

/-- C8: only the `RecordingStarted` branch writes the session
timestamp: under every other event the timestamp after the handler run
equals the timestamp before it (including the raising stop-with-unset
run, which leaves the global untouched). -/
theorem c8_only_start_writes_timestamp (now : Nat) (ev : Event) (st : Option Nat)
    (hne : ev ≠ Event.recordingStarted) :
    stateOf (get_event now ev st) = st := by
  cases ev with
  | recordingStarted => exact absurd rfl hne
  | recordingStopped => cases st <;> rfl
  | replayBufferSaved => rfl
  | replayBufferStopped => rfl
  | other code => rfl

/-- Witness for C8: a `ReplayBufferStopped` event at time 5 leaves a
set timestamp of 3 unchanged. -/
theorem c8_witness :
    Event.replayBufferStopped ≠ Event.recordingStarted ∧
    stateOf (get_event 5 Event.replayBufferStopped (some 3)) = some 3 :=
  ⟨by decide, c8_only_start_writes_timestamp 5 Event.replayBufferStopped (some 3) (by decide)⟩

/-- C9: in the effect trace of every handled `RecordingStopped`
dispatch, the non-blocking `Popen` spawn occurs strictly before the
blocking notification `call` (and the `call` does occur). -/
theorem c9_popen_precedes_blocking_call (now t : Nat) :
    ((effectsOf (get_event now Event.recordingStopped (some t))).findIdx is_popen_effect <
      (effectsOf (get_event now Event.recordingStopped (some t))).findIdx is_call_effect) ∧
    ((effectsOf (get_event now Event.recordingStopped (some t))).findIdx is_call_effect <
      (effectsOf (get_event now Event.recordingStopped (some t))).length) := by
  refine ⟨?_, ?_⟩
  · show (1 : Nat) < 2
    decide
  · show (2 : Nat) < 3
    decide

/-- C10: `script_defaults` writes only the default of the `enableRB`
key: every stored value (of every key) and the default of every other
key are unchanged. -/
theorem c10_script_defaults_writes_only_enableRB_default (active : Bool)
    (settings : DataSettings) (k : String) :
    ((script_defaults active settings).values k = settings.values k) ∧
    (k ≠ "enableRB" → (script_defaults active settings).defaults k = settings.defaults k) := by
  refine ⟨rfl, fun hk => ?_⟩
  simp [script_defaults, obs_data_set_default_bool, hk]

end Notifications
